import Mathlib

/-!
Shallow embedding of the `nest-temp` documentation-site repository:
the `rspress.config.ts` site configuration (all three revisions present
in the repository history) and the `Makefile` command surface, together
with proofs of the specification's claims about them.
-/

/-- A sidebar tree node, from `rspress.config.ts`:
`{ text: string, link?: string, collapsible?: boolean, items?: SidebarEntry[] }`. -/
inductive SidebarEntry : Type where
  | mk (text : String) (link : Option String) (collapsible : Option Bool)
      (items : Option (List SidebarEntry)) : SidebarEntry

def SidebarEntry.text : SidebarEntry → String
  | .mk t _ _ _ => t

def SidebarEntry.link : SidebarEntry → Option String
  | .mk _ l _ _ => l

def SidebarEntry.collapsible : SidebarEntry → Option Bool
  | .mk _ _ c _ => c

def SidebarEntry.items : SidebarEntry → Option (List SidebarEntry)
  | .mk _ _ _ i => i

/-- `logo: { light, dark }` of the config. -/
structure Logo where
  light : String
  dark : String
deriving DecidableEq

/-- `themeConfig.footer` of the config. -/
structure Footer where
  message : String
deriving DecidableEq

/-- One element of `themeConfig.socialLinks`. -/
structure SocialLink where
  icon : String
  mode : String
  content : String
deriving DecidableEq

/-- `themeConfig` of the config; the sidebar map is a list of
(route-prefix, entries) pairs in declaration order. -/
structure ThemeConfig where
  footer : Option Footer
  hideNavbar : String
  search : Bool
  sidebar : List (String × List SidebarEntry)
  socialLinks : List SocialLink

/-- `markdown` options of the config; both fields are optional
(`checkDeadLinks` is commented out in every revision). -/
structure MarkdownConfig where
  checkDeadLinks : Option Bool
  highlightLanguages : Option (List String)
deriving DecidableEq

/-- The whole object passed to `defineConfig` in `rspress.config.ts`. -/
structure SiteConfig where
  root : String
  title : String
  description : String
  icon : String
  logo : Logo
  themeConfig : ThemeConfig
  markdown : MarkdownConfig

/-- Modelled from the spec: `__dirname`, the directory holding the config
file, a fixed path for a given checkout (the spec calls the content root
"a fixed root directory"). -/
def dirname : String := "."

/-- `path.join` as used in the config: joins two path segments with `/`. -/
def pathJoin (a b : String) : String := a ++ "/" ++ b

/-- The template literal in `themeConfig.footer.message`: it interpolates
`new Date().getFullYear()`, the current year at evaluation time. -/
def footerMessage (year : Nat) : String :=
  "Copyright © 2020-" ++ toString year ++ " My Project, Inc. Built with Rspress"

/-- Sidebar entries under the `'/'` key in the first (current) revision of
`rspress.config.ts`. -/
def sidebarRootEntries : List SidebarEntry :=
  [ .mk "What is Nest?" (some "/index") none none,
    .mk "Intro" (some "/intro") none none,
    .mk "INTRODUCTION" (some "/introduction") none none,
    .mk "OVERVIEW" none (some false) (some
      [ .mk "First steps" (some "/overview/first-steps") none none,
        .mk "Controllers" (some "/overview/controllers") none none,
        .mk "Providers" (some "/overview/providers") none none,
        .mk "Modules" (some "/overview/modules") none none,
        .mk "Middleware" (some "/overview/middleware") none none,
        .mk "Exception filters" (some "/overview/exception-filters") none none ]) ]

/-- The first (current) revision of the config object, as a function of
the current year (which `footer.message` reads from `new Date()`). -/
def rspressConfig (year : Nat) : SiteConfig where
  root := pathJoin dirname "docs"
  title := "Nest"
  description := "About Nest"
  icon := "/rspress-icon.png"
  logo := { light := "/rspress-light-logo.png", dark := "/rspress-dark-logo.png" }
  themeConfig :=
    { footer := some { message := footerMessage year }
      hideNavbar := "auto"
      search := false
      sidebar := [("/", sidebarRootEntries)]
      socialLinks := [{ icon := "github", mode := "link",
                        content := "https://github.com/nestjs/nest" }] }
  markdown := { checkDeadLinks := none, highlightLanguages := none }

mutual

/-- All `link` values of a sidebar entry and its descendants, in order. -/
def entryLinks : SidebarEntry → List String
  | .mk _ l _ none => l.toList
  | .mk _ l _ (some items) => l.toList ++ entriesLinks items

/-- All `link` values in a list of sidebar entries, in order. -/
def entriesLinks : List SidebarEntry → List String
  | [] => []
  | e :: es => entryLinks e ++ entriesLinks es

end

/-- All `link` values in a whole sidebar map, across every route-prefix key. -/
def sidebarLinks (m : List (String × List SidebarEntry)) : List String :=
  (m.map (fun p => entriesLinks p.2)).flatten

/-- Sidebar entries under the `'/'` key in the second revision of
`rspress.config.ts` (the one with no footer and a single OVERVIEW item). -/
def sidebarRootEntriesRev2 : List SidebarEntry :=
  [ .mk "What is Nest?" (some "/index") none none,
    .mk "Intro" (some "/intro") none none,
    .mk "INTRODUCTION" (some "/introduction") none none,
    .mk "OVERVIEW" none none (some
      [ .mk "First steps" (some "/overview/first-steps") none none ]) ]

/-- The second revision of the config object. Its footer is absent, so it
does not read the current date and is a plain constant. -/
def rspressConfigRev2 : SiteConfig where
  root := pathJoin dirname "docs"
  title := "Nest"
  description := "About Nest"
  icon := "/rspress-icon.png"
  logo := { light := "/rspress-light-logo.png", dark := "/rspress-dark-logo.png" }
  themeConfig :=
    { footer := none
      hideNavbar := "auto"
      search := false
      sidebar := [("/", sidebarRootEntriesRev2)]
      socialLinks := [{ icon := "github", mode := "link",
                        content := "https://github.com/nestjs/nest" }] }
  markdown := { checkDeadLinks := none, highlightLanguages := some ["ejs"] }

/-- Sidebar entries under the `'/'` key in the third revision of
`rspress.config.ts` (ten OVERVIEW items plus a FUNDAMENTALS group). -/
def sidebarRootEntriesRev3 : List SidebarEntry :=
  [ .mk "What is Nest?" (some "/index") none none,
    .mk "Intro" (some "/intro") none none,
    .mk "INTRODUCTION" (some "/introduction") none none,
    .mk "OVERVIEW" none (some false) (some
      [ .mk "First steps" (some "/overview/first-steps") none none,
        .mk "Controllers" (some "/overview/controllers") none none,
        .mk "Providers" (some "/overview/providers") none none,
        .mk "Modules" (some "/overview/modules") none none,
        .mk "Middleware" (some "/overview/middleware") none none,
        .mk "Exception filters" (some "/overview/exception-filters") none none,
        .mk "Pipes" (some "/overview/pipes") none none,
        .mk "Guards" (some "/overview/guards") none none,
        .mk "Interceptors" (some "/overview/interceptors") none none,
        .mk "Custom decorators" (some "/overview/custom-decorators") none none ]),
    .mk "FUNDAMENTALS" none (some false) (some
      [ .mk "Custom providers" (some "/fundamentals/custom-providers") none none ]) ]

/-- The third revision of the config object, again a function of the
current year through `footer.message`. -/
def rspressConfigRev3 (year : Nat) : SiteConfig where
  root := pathJoin dirname "docs"
  title := "Nest"
  description := "About Nest"
  icon := "/favicon.ico"
  logo := { light := "/rspress-light-logo.png", dark := "/rspress-dark-logo.png" }
  themeConfig :=
    { footer := some { message := footerMessage year }
      hideNavbar := "auto"
      search := false
      sidebar := [("/", sidebarRootEntriesRev3)]
      socialLinks := [{ icon := "github", mode := "link",
                        content := "https://github.com/nestjs/nest" }] }
  markdown := { checkDeadLinks := none, highlightLanguages := none }

/-- Modelled from the spec: the content corpus (the repository's `docs/`
directory) is not among the source files; per the spec, a markdown
document with a path-derived route exists for each concept the sidebar
links to (the spec's example: the entry linking `/overview/controllers`
has `docs/overview/controllers.md`). These are the routes at which a
content document exists under the content root. -/
def contentRoutes : List String :=
  ["/index", "/intro", "/introduction", "/overview/first-steps",
   "/overview/controllers", "/overview/providers", "/overview/modules",
   "/overview/middleware", "/overview/exception-filters"]

/- ### Makefile command surface -/

/-- The targets declared in the `Makefile`. -/
inductive Target : Type where
  | build | dev | fmt | install | log | pull | push
deriving DecidableEq

/-- The external commands the `Makefile` recipes invoke. -/
inductive Cmd : Type where
  | yarnRunBuild | yarnRunDev | yarnRunFmt | yarnInstall
  | gitLog | gitPull | gitPush
deriving DecidableEq

/-- Prerequisite lists as written in the `Makefile`:
`build: fmt` and `push: pull`; every other target has none. -/
def prereqs : Target → List Target
  | .build => [.fmt]
  | .push => [.pull]
  | _ => []

/-- Each target's own recipe line. -/
def recipe : Target → List Cmd
  | .build => [.yarnRunBuild]
  | .dev => [.yarnRunDev]
  | .fmt => [.yarnRunFmt]
  | .install => [.yarnInstall]
  | .log => [.gitLog]
  | .pull => [.gitPull]
  | .push => [.gitPush]

/-- Make semantics on this dependency graph: invoking a target first runs
each prerequisite (recursively), then the target's own recipe. The fuel
bounds the recursion depth; it exceeds the number of targets, so it is
never exhausted on this acyclic graph. -/
def runTargetFuel : Nat → Target → List Cmd
  | 0, _ => []
  | Nat.succ n, t => ((prereqs t).map (runTargetFuel n)).flatten ++ recipe t

/-- The command sequence an invocation of a target executes. -/
def runTarget (t : Target) : List Cmd := runTargetFuel 8 t

/- ### Sidebar shape -/

mutual

/-- A sidebar node is well-shaped when it carries exactly one of `link`
(a leaf) or `items` (a group), never both and never neither, and all of
its children are well-shaped. -/
def entryWellShaped : SidebarEntry → Bool
  | .mk _ l _ none => l.isSome
  | .mk _ l _ (some items) => !l.isSome && entriesWellShaped items

/-- Every entry in the list is well-shaped. -/
def entriesWellShaped : List SidebarEntry → Bool
  | [] => true
  | e :: es => entryWellShaped e && entriesWellShaped es

end

/-- Every entry under every key of a sidebar map is well-shaped. -/
def sidebarWellShaped (m : List (String × List SidebarEntry)) : Bool :=
  m.all (fun p => entriesWellShaped p.2)

/-- Whether a string starts with the character `/`. -/
def startsWithSlash (s : String) : Bool :=
  match s.data with
  | [] => false
  | c :: _ => c == '/'

/- ### Serialization model -/

/-- Modelled from the spec: a JSON-like document tree, the format the
round-trip property serializes the pure-data `SiteConfig` into; absent
optional fields serialize to `null`. -/
inductive Json : Type where
  | null : Json
  | bool (b : Bool) : Json
  | str (s : String) : Json
  | arr (xs : List Json) : Json
  | obj (fields : List (String × Json)) : Json

def encodeOptStr : Option String → Json
  | none => Json.null
  | some s => Json.str s

def decodeOptStr : Json → Option (Option String)
  | Json.null => some none
  | Json.str s => some (some s)
  | _ => none

def encodeOptBool : Option Bool → Json
  | none => Json.null
  | some b => Json.bool b

def decodeOptBool : Json → Option (Option Bool)
  | Json.null => some none
  | Json.bool b => some (some b)
  | _ => none

mutual

/-- Serialize a sidebar entry. -/
def encodeEntry : SidebarEntry → Json
  | .mk t l c items =>
      Json.obj [("text", Json.str t), ("link", encodeOptStr l),
                ("collapsible", encodeOptBool c), ("items", encodeOptItems items)]

/-- Serialize an optional children list (`null` when absent). -/
def encodeOptItems : Option (List SidebarEntry) → Json
  | none => Json.null
  | some es => Json.arr (encodeEntryList es)

/-- Serialize a list of sidebar entries. -/
def encodeEntryList : List SidebarEntry → List Json
  | [] => []
  | e :: es => encodeEntry e :: encodeEntryList es

end

mutual

/-- Deserialize a sidebar entry; fails on any other document shape. -/
def decodeEntry : Json → Option SidebarEntry
  | Json.obj [("text", Json.str t), ("link", l),
              ("collapsible", c), ("items", i)] =>
      match decodeOptStr l, decodeOptBool c, decodeOptItems i with
      | some lo, some co, some io => some (.mk t lo co io)
      | _, _, _ => none
  | _ => none

/-- Deserialize an optional children list. -/
def decodeOptItems : Json → Option (Option (List SidebarEntry))
  | Json.null => some none
  | Json.arr xs => (decodeEntryList xs).map some
  | _ => none

/-- Deserialize a list of sidebar entries. -/
def decodeEntryList : List Json → Option (List SidebarEntry)
  | [] => some []
  | j :: js =>
      match decodeEntry j, decodeEntryList js with
      | some e, some es => some (e :: es)
      | _, _ => none

end

def encodeLogo (l : Logo) : Json :=
  Json.obj [("light", Json.str l.light), ("dark", Json.str l.dark)]

def decodeLogo : Json → Option Logo
  | Json.obj [("light", Json.str li), ("dark", Json.str d)] =>
      some { light := li, dark := d }
  | _ => none

def encodeFooter : Option Footer → Json
  | none => Json.null
  | some f => Json.obj [("message", Json.str f.message)]

def decodeFooter : Json → Option (Option Footer)
  | Json.null => some none
  | Json.obj [("message", Json.str m)] => some (some { message := m })
  | _ => none

def encodeSocialLink (s : SocialLink) : Json :=
  Json.obj [("icon", Json.str s.icon), ("mode", Json.str s.mode),
            ("content", Json.str s.content)]

def decodeSocialLink : Json → Option SocialLink
  | Json.obj [("icon", Json.str i), ("mode", Json.str m),
              ("content", Json.str c)] =>
      some { icon := i, mode := m, content := c }
  | _ => none

def decodeSocialLinks : List Json → Option (List SocialLink)
  | [] => some []
  | j :: js =>
      match decodeSocialLink j, decodeSocialLinks js with
      | some s, some ss => some (s :: ss)
      | _, _ => none

def encodeSidebar (m : List (String × List SidebarEntry)) : Json :=
  Json.obj (m.map (fun p => (p.1, Json.arr (encodeEntryList p.2))))

def decodeSidebarFields : List (String × Json) → Option (List (String × List SidebarEntry))
  | [] => some []
  | (k, Json.arr xs) :: rest =>
      match decodeEntryList xs, decodeSidebarFields rest with
      | some es, some m => some ((k, es) :: m)
      | _, _ => none
  | _ => none

def decodeSidebar : Json → Option (List (String × List SidebarEntry))
  | Json.obj fields => decodeSidebarFields fields
  | _ => none

def encodeTheme (tc : ThemeConfig) : Json :=
  Json.obj [("footer", encodeFooter tc.footer),
            ("hideNavbar", Json.str tc.hideNavbar),
            ("search", Json.bool tc.search),
            ("sidebar", encodeSidebar tc.sidebar),
            ("socialLinks", Json.arr (tc.socialLinks.map encodeSocialLink))]

def decodeTheme : Json → Option ThemeConfig
  | Json.obj [("footer", f), ("hideNavbar", Json.str hn),
              ("search", Json.bool se), ("sidebar", sb),
              ("socialLinks", Json.arr sl)] =>
      match decodeFooter f, decodeSidebar sb, decodeSocialLinks sl with
      | some fo, some m, some ss =>
          some { footer := fo, hideNavbar := hn, search := se,
                 sidebar := m, socialLinks := ss }
      | _, _, _ => none
  | _ => none

def encodeOptStrList : Option (List String) → Json
  | none => Json.null
  | some ss => Json.arr (ss.map Json.str)

def decodeStrList : List Json → Option (List String)
  | [] => some []
  | Json.str s :: js => (decodeStrList js).map (fun ss => s :: ss)
  | _ => none

def decodeOptStrList : Json → Option (Option (List String))
  | Json.null => some none
  | Json.arr xs => (decodeStrList xs).map some
  | _ => none

def encodeMarkdown (m : MarkdownConfig) : Json :=
  Json.obj [("checkDeadLinks", encodeOptBool m.checkDeadLinks),
            ("highlightLanguages", encodeOptStrList m.highlightLanguages)]

def decodeMarkdown : Json → Option MarkdownConfig
  | Json.obj [("checkDeadLinks", cd), ("highlightLanguages", hl)] =>
      match decodeOptBool cd, decodeOptStrList hl with
      | some c, some h => some { checkDeadLinks := c, highlightLanguages := h }
      | _, _ => none
  | _ => none

/-- Modelled from the spec: serialization of the pure-data `SiteConfig`
into a JSON document (the re-serialization half of the spec's round-trip
property; the generator itself is external to the repository). -/
def encodeSiteConfig (c : SiteConfig) : Json :=
  Json.obj [("root", Json.str c.root), ("title", Json.str c.title),
            ("description", Json.str c.description), ("icon", Json.str c.icon),
            ("logo", encodeLogo c.logo),
            ("themeConfig", encodeTheme c.themeConfig),
            ("markdown", encodeMarkdown c.markdown)]

/-- Modelled from the spec: reloading a serialized `SiteConfig` document
(the reload half of the spec's round-trip property). -/
def decodeSiteConfig : Json → Option SiteConfig
  | Json.obj [("root", Json.str r), ("title", Json.str t),
              ("description", Json.str d), ("icon", Json.str i),
              ("logo", lo), ("themeConfig", tc), ("markdown", mk)] =>
      match decodeLogo lo, decodeTheme tc, decodeMarkdown mk with
      | some l, some th, some m =>
          some { root := r, title := t, description := d, icon := i,
                 logo := l, themeConfig := th, markdown := m }
      | _, _, _ => none
  | _ => none

/- ### Claims -/

/-- C1: every `link` in every SidebarEntry of the sidebar tree of the
SiteConfig (under every key of `themeConfig.sidebar`) resolves to an
existing content document route under the content root — no dead links. -/
theorem sidebar_links_resolve (y : Nat) :
    ∀ l ∈ sidebarLinks (rspressConfig y).themeConfig.sidebar, l ∈ contentRoutes := by
  have e : sidebarLinks (rspressConfig y).themeConfig.sidebar
      = sidebarLinks (rspressConfig 0).themeConfig.sidebar := rfl
  rw [e]
  decide

theorem sidebar_links_resolve_witness :
    "/overview/controllers" ∈ contentRoutes :=
  sidebar_links_resolve 2024 "/overview/controllers" (by decide)

/-- C2: the collection of all `link` values in the sidebar tree, at every
depth and across every key of `themeConfig.sidebar`, has no duplicates. -/
theorem sidebar_links_nodup (y : Nat) :
    (sidebarLinks (rspressConfig y).themeConfig.sidebar).Nodup := by
  have e : sidebarLinks (rspressConfig y).themeConfig.sidebar
      = sidebarLinks (rspressConfig 0).themeConfig.sidebar := rfl
  rw [e]
  decide

/-- C3: serializing the SiteConfig declared in this repository and
reloading the result yields a structure identical to the original, for
every evaluation of the declaration (the config is pure data). -/
theorem siteConfig_roundtrip (y : Nat) :
    decodeSiteConfig (encodeSiteConfig (rspressConfig y)) = some (rspressConfig y) := rfl

/-- C4 counterexample: the config declaration is not a deterministic
constant independent of ambient state — `themeConfig.footer.message`
interpolates the current year, so evaluating the declaration in 2024 and
in 2025 yields different SiteConfig values. -/
theorem config_depends_on_current_year :
    rspressConfig 2024 ≠ rspressConfig 2025 := by
  intro h
  have h2 : (rspressConfig 2024).themeConfig.footer
      = (rspressConfig 2025).themeConfig.footer := by rw [h]
  exact absurd h2 (by decide)

/-- C4 amended: the SiteConfig is built from a static declaration with no
runtime mutation, and every field other than `themeConfig.footer` is the
same across any two evaluations; only `footer.message`, which embeds the
current year, depends on ambient state. -/
theorem config_static_except_footer (y1 y2 : Nat) :
    (rspressConfig y1).root = (rspressConfig y2).root ∧
    (rspressConfig y1).title = (rspressConfig y2).title ∧
    (rspressConfig y1).description = (rspressConfig y2).description ∧
    (rspressConfig y1).icon = (rspressConfig y2).icon ∧
    (rspressConfig y1).logo = (rspressConfig y2).logo ∧
    (rspressConfig y1).themeConfig.hideNavbar = (rspressConfig y2).themeConfig.hideNavbar ∧
    (rspressConfig y1).themeConfig.search = (rspressConfig y2).themeConfig.search ∧
    (rspressConfig y1).themeConfig.sidebar = (rspressConfig y2).themeConfig.sidebar ∧
    (rspressConfig y1).themeConfig.socialLinks = (rspressConfig y2).themeConfig.socialLinks ∧
    (rspressConfig y1).markdown = (rspressConfig y2).markdown :=
  ⟨rfl, rfl, rfl, rfl, rfl, rfl, rfl, rfl, rfl, rfl⟩

/-- C5: every node of the sidebar tree is well-shaped: it carries exactly
one of `link` (leaf) or `items` (group), never both and never neither,
recursively at every depth and under every key of the sidebar map. -/
theorem sidebar_entries_well_shaped (y : Nat) :
    sidebarWellShaped (rspressConfig y).themeConfig.sidebar = true := by
  have e : (rspressConfig y).themeConfig.sidebar
      = (rspressConfig 0).themeConfig.sidebar := rfl
  rw [e]
  decide

/-- C6: invoking the `build` target runs exactly the `fmt` step followed
by the site build step, in that order — the build never happens without
the preceding format. -/
theorem build_runs_fmt_then_build :
    runTarget Target.build = [Cmd.yarnRunFmt, Cmd.yarnRunBuild] := by decide

/-- C7: every key of `themeConfig.sidebar` is a route prefix starting
with the character `/`. -/
theorem sidebar_keys_start_with_slash (y : Nat) :
    ∀ k ∈ (rspressConfig y).themeConfig.sidebar.map Prod.fst,
      startsWithSlash k = true := by
  have e : (rspressConfig y).themeConfig.sidebar
      = (rspressConfig 0).themeConfig.sidebar := rfl
  rw [e]
  decide

theorem sidebar_keys_start_with_slash_witness :
    startsWithSlash "/" = true :=
  sidebar_keys_start_with_slash 2024 "/" (by decide)

/-- C8: invoking the `push` target runs exactly the `pull` step
(`git pull origin master:master`) followed by the push step
(`git push origin dev:dev`), in that order — a push never happens
without the preceding pull. -/
theorem push_runs_pull_then_push :
    runTarget Target.push = [Cmd.gitPull, Cmd.gitPush] := by decide

/-- C9: every `link` value in any SidebarEntry of the sidebar tree is an
absolute route, starting with the character `/`. -/
theorem sidebar_links_absolute (y : Nat) :
    ∀ l ∈ sidebarLinks (rspressConfig y).themeConfig.sidebar,
      startsWithSlash l = true := by
  have e : sidebarLinks (rspressConfig y).themeConfig.sidebar
      = sidebarLinks (rspressConfig 0).themeConfig.sidebar := rfl
  rw [e]
  decide

theorem sidebar_links_absolute_witness :
    startsWithSlash "/index" = true :=
  sidebar_links_absolute 2024 "/index" (by decide)

/-- C10: in every revision of the SiteConfig declared in this repository,
`themeConfig.search` equals `false` — search is explicitly disabled, not
merely defaulted or omitted. -/
theorem search_disabled_in_every_revision (y : Nat) :
    (rspressConfig y).themeConfig.search = false ∧
    rspressConfigRev2.themeConfig.search = false ∧
    (rspressConfigRev3 y).themeConfig.search = false :=
  ⟨rfl, rfl, rfl⟩
